import Mathlib

/-!
Shallow embedding of `crates/typst-layout/src/flow/mod.rs`: the flow layout
driver of the typst document layout engine.  Absolute lengths (`Abs`, an
`f64` in the source) are modelled as exact rationals together with a
positive-infinity marker — the only non-finite value that arises in this
module.  The collaborators that live outside this module (`collect`,
`compose`, realization, style resolution) are either opaque parameters or
modelled from the spec, as marked on each definition.
-/

namespace Flow

/-- An absolute length.  Modelled from the spec: the source type is a
floating-point length from the layout library; finite values are modelled
exactly as rationals, and the single non-finite value reachable in this
module (an unbounded region axis) as `inf`. -/
inductive Abs where
  | fin (v : ℚ)
  | inf
deriving DecidableEq, Repr

/-- Whether the length is finite (`Abs::is_finite` on the underlying float). -/
def Abs.isFinite : Abs → Bool
  | .fin _ => true
  | .inf => false

/-- Subtraction of lengths.  The subtrahend is always finite at the use
sites in this module (it is a gutter total). -/
def Abs.sub : Abs → Abs → Abs
  | .fin a, .fin b => .fin (a - b)
  | .inf, _ => .inf
  | .fin _, .inf => .inf

/-- Scaling a length by a natural number (`gutter * (count - 1) as f64`). -/
def Abs.mulNat : Abs → ℕ → Abs
  | .fin a, n => .fin (a * n)
  | .inf, _ => .inf

/-- Dividing a length by a natural number (`/ count as f64`); the divisor is
the column count, which is at least one. -/
def Abs.divNat : Abs → ℕ → Abs
  | .fin a, n => .fin (a / n)
  | .inf, _ => .inf

/-- A pair of values along the horizontal and vertical axes. -/
structure Axes (α : Type) where
  x : α
  y : α
deriving DecidableEq, Repr

/-- A combined relative and absolute length (`Rel<Abs>`): a ratio of some
base length plus an absolute offset. -/
structure Rel where
  rel : ℚ
  abs : ℚ
deriving DecidableEq, Repr

/-- Modelled from the spec: the style-resolver collaborator's resolution of
a relative length against a base (`Rel::relative_to`).  The ratio part of a
non-finite base resolves to zero (the library guards non-finite products),
leaving only the absolute part. -/
def Rel.relative_to (r : Rel) : Abs → Abs
  | .fin b => .fin (r.rel * b + r.abs)
  | .inf => .fin r.abs

/-- Modelled from the spec: the region descriptor consumed by the driver —
the first region's size, its full height, a backlog of subsequent region
heights, and per-axis auto-expansion flags. -/
structure Regions where
  size : Axes Abs
  full : Abs
  backlog : List Abs
  expand : Axes Bool
deriving DecidableEq, Repr

/-- The base size used to resolve relative lengths (`Regions::base`). -/
def Regions.base (r : Regions) : Axes Abs :=
  ⟨r.size.x, r.full⟩

/-- Modelled from the spec: advancing to the next region consumes one entry
from the backlog, which becomes the new current height; with an empty
backlog the region geometry is unchanged. -/
def Regions.next (r : Regions) : Regions :=
  match r.backlog with
  | [] => r
  | h :: t => { r with size := ⟨r.size.x, h⟩, full := h, backlog := t }

/-- An identity of a float or footnote (`introspection::Location`). -/
abbrev Location : Type := ℕ

/-- An opaque finished frame. -/
structure Frame where
  val : ℕ
deriving DecidableEq, Repr

/-- An opaque span pointing into source code. -/
structure Span where
  val : ℕ
deriving DecidableEq, Repr

/-- A source-located diagnostic. -/
structure SourceDiagnostic where
  span : Span
  message : String
deriving DecidableEq, Repr

/-- An opaque pre-collected child unit (`collect::Child`). -/
structure Child where
  val : ℕ
deriving DecidableEq, Repr

/-- An opaque leftover of a breakable block (`collect::MultiSpill`). -/
structure MultiSpill where
  val : ℕ
deriving DecidableEq, Repr

/-- An opaque placed (floating) child (`collect::PlacedChild`). -/
structure PlacedChild where
  val : ℕ
deriving DecidableEq, Repr

/-- An opaque footnote element. -/
structure FootnoteElem where
  val : ℕ
deriving DecidableEq, Repr

/-- An opaque introspection tag. -/
structure Tag where
  val : ℕ
deriving DecidableEq, Repr

/-- An opaque piece of content (the footnote separator). -/
structure Content where
  val : ℕ
deriving DecidableEq, Repr

/-- The horizontal direction in which text and columns progress. -/
inductive Dir where
  | ltr
  | rtl
deriving DecidableEq, Repr

/-- Where line numbers are reset (`LineNumberingScope`). -/
inductive LineNumberingScope where
  | document
  | page
deriving DecidableEq, Repr

/-- The mode a flow can be laid out in (`FlowMode`). -/
inductive FlowMode where
  | Root
  | Block
  | Inline
deriving DecidableEq, Repr

/-- Modelled from the spec: the style-resolver collaborator.  The styles
shared by the whole flow, already resolved to the handful of values that
`configuration` reads verbatim. -/
structure StyleChain where
  textDir : Dir
  footnoteSeparator : Content
  footnoteClearance : ℚ
  footnoteGap : ℚ
  parLineNumberingScope : LineNumberingScope
  pageFlipped : Bool
  pageWidth : Option ℚ
  pageHeight : Option ℚ
  fontSize : ℚ
deriving DecidableEq, Repr

/-- The work that is left to do by flow layout (`Work`).  The
reference-counted skip set is modelled by its value: Rust's copy-on-write
`Rc` gives the field value semantics, which a Lean structure field has
directly. -/
structure Work where
  children : List Child
  spill : Option MultiSpill
  floats : List PlacedChild
  footnotes : List FootnoteElem
  footnote_spill : Option (List Frame)
  tags : List Tag
  skips : Finset Location
deriving DecidableEq

/-- Create the initial work state from a list of children (`Work::new`). -/
def Work.new (children : List Child) : Work :=
  { children := children
    spill := none
    floats := []
    footnotes := []
    footnote_spill := none
    tags := []
    skips := ∅ }

/-- Get the first unprocessed child (`Work::head`). -/
def Work.head (w : Work) : Option Child :=
  w.children.head?

/-- Whether all work is done, meaning flow layout can terminate
(`Work::done`). -/
def Work.done (w : Work) : Bool :=
  w.children.isEmpty
    && w.spill.isNone
    && w.floats.isEmpty
    && w.footnote_spill.isNone
    && w.footnotes.isEmpty

/-- Add skipped floats and footnotes to the skip set
(`Work::extend_skips`): a no-op for an empty list, otherwise the set is
copied-on-write and extended. -/
def Work.extend_skips (w : Work) (skips : List Location) : Work :=
  if skips.isEmpty then w
  else { w with skips := w.skips ∪ skips.toFinset }

/-- `Clone::clone` on `Work`: a field-wise copy; the skip set is shared by
bumping the reference count, observable only as an equal value. -/
def Work.clone (w : Work) : Work := w

/-- Configuration of columns (`ColumnConfig`). -/
structure ColumnConfig where
  count : ℕ
  width : Abs
  gutter : Abs
  dir : Dir
deriving DecidableEq, Repr

/-- Configuration of footnotes (`FootnoteConfig`). -/
structure FootnoteConfig where
  separator : Content
  clearance : ℚ
  gap : ℚ
  expand : Bool
deriving DecidableEq, Repr

/-- Configuration of line numbers (`LineNumberConfig`). -/
structure LineNumberConfig where
  scope : LineNumberingScope
  default_clearance : ℚ
deriving DecidableEq, Repr

/-- Shared configuration for the whole flow (`Config`). -/
structure Config where
  mode : FlowMode
  shared : StyleChain
  columns : ColumnConfig
  footnote : FootnoteConfig
  line_numbers : Option LineNumberConfig
deriving DecidableEq, Repr

/-- Determine the flow's configuration (`configuration`).  The column
count falls back to one for a non-finite region width; the per-column
width divides the region width minus the total gutter space by the count;
line numbers are configured only for the root flow. -/
def configuration (shared : StyleChain) (regions : Regions) (columns : ℕ)
    (column_gutter : Rel) (mode : FlowMode) : Config :=
  { mode := mode
    shared := shared
    columns :=
      let count := if regions.size.x.isFinite then columns else 1
      let gutter := column_gutter.relative_to (regions.base).x
      let width := (regions.size.x.sub (gutter.mulNat (count - 1))).divNat count
      { count := count, width := width, gutter := gutter, dir := shared.textDir }
    footnote :=
      { separator := shared.footnoteSeparator
        clearance := shared.footnoteClearance
        gap := shared.footnoteGap
        expand := regions.expand.x }
    line_numbers :=
      if mode = FlowMode.Root then
        some
          { scope := shared.parLineNumberingScope
            default_clearance :=
              let width :=
                if shared.pageFlipped then shared.pageHeight else shared.pageWidth
              max (min (26 / 1000 * width.getD 0) (max (5 / 2 * shared.fontSize) 0))
                (max (3 / 4 * shared.fontSize) 0) }
      else none }

/-- The composer collaborator, as the driver sees it: one call produces the
frame for the current region and the updated work state, or a fatal error.
The in-place mutation of `Work` in the source is modelled by returning the
updated value. -/
def Composer : Type :=
  Work → Regions → Except (List SourceDiagnostic) (Frame × Work)

/-- The region loop of `layout_flow`, indexed by fuel (the source loop's
termination rests on progress made by `compose`, which is a parameter
here): compose a frame for the current region, append it, stop when the
work is done and the vertical axis does not expand or the backlog is
drained, and otherwise advance to the next region.  `none` means the fuel
ran out before the loop stopped. -/
def layout_flow_loop (compose : Composer) :
    ℕ → Work → Regions → List Frame →
      Option (Except (List SourceDiagnostic) (List Frame))
  | 0, _, _, _ => none
  | fuel + 1, work, regions, finished =>
    match compose work regions with
    | .error e => some (.error e)
    | .ok (frame, work') =>
      let finished := finished ++ [frame]
      if work'.done && (!regions.expand.y || regions.backlog.isEmpty) then
        some (.ok finished)
      else
        layout_flow_loop compose fuel work' regions.next finished

/-- Lays out pre-collected children into regions (`layout_flow`, after the
`collect` call): build the initial work state and run the region loop with
an empty list of finished frames. -/
def layout_flow (compose : Composer) (fuel : ℕ) (children : List Child)
    (regions : Regions) : Option (Except (List SourceDiagnostic) (List Frame)) :=
  layout_flow_loop compose fuel (Work.new children) regions []

/-- The number of loop iterations — equivalently, of consumed regions — of
`layout_flow_loop`, mirroring its structure: each iteration consumes the
current region, and the loop then either stops or advances. -/
def layout_flow_iterations (compose : Composer) :
    ℕ → Work → Regions → Option (Except (List SourceDiagnostic) ℕ)
  | 0, _, _ => none
  | fuel + 1, work, regions =>
    match compose work regions with
    | .error e => some (.error e)
    | .ok (_, work') =>
      if work'.done && (!regions.expand.y || regions.backlog.isEmpty) then
        some (.ok 1)
      else
        (layout_flow_iterations compose fuel work' regions.next).map
          (fun r => r.map (· + 1))

/-- A fragment: the list of frames a flow invocation produces. -/
abbrev Fragment : Type := List Frame

/-- The cached entry point (`layout_fragment_impl`), up to its precondition
checks: an unbounded axis that is asked to expand is rejected with a
source-located error before anything else runs.  Everything after the two
checks — linking the locator, the depth check, realization and
`layout_flow` — is the opaque `rest` parameter, called only when both
checks pass. -/
def layout_fragment_impl
    (rest : Span → Regions → Except (List SourceDiagnostic) Fragment)
    (contentSpan : Span) (regions : Regions) :
    Except (List SourceDiagnostic) Fragment :=
  if !regions.size.x.isFinite && regions.expand.x then
    .error [⟨contentSpan, "cannot expand into infinite width"⟩]
  else if !regions.size.y.isFinite && regions.expand.y then
    .error [⟨contentSpan, "cannot expand into infinite height"⟩]
  else rest contentSpan regions

/-! Sample inputs used to evaluate the theorems below on concrete data. -/

/-- A sample style chain with unremarkable resolved values. -/
def sampleStyles : StyleChain :=
  { textDir := Dir.ltr
    footnoteSeparator := ⟨0⟩
    footnoteClearance := 1
    footnoteGap := 1
    parLineNumberingScope := LineNumberingScope.document
    pageFlipped := false
    pageWidth := some 210
    pageHeight := some 297
    fontSize := 11 }

/-- A sample bounded region with no backlog and no expansion. -/
def sampleRegions : Regions :=
  { size := ⟨Abs.fin 10, Abs.fin 20⟩
    full := Abs.fin 20
    backlog := []
    expand := ⟨false, false⟩ }

/-- A sample region whose width is unbounded and asked to expand. -/
def sampleInfiniteRegions : Regions :=
  { size := ⟨Abs.inf, Abs.fin 20⟩
    full := Abs.fin 20
    backlog := []
    expand := ⟨true, false⟩ }

/-- A sample work state with a single child left. -/
def sampleWork : Work :=
  Work.new [⟨0⟩]

/-- A sample composer that finishes all remaining work in one region. -/
def sampleComposeDone : Composer :=
  fun _ _ => .ok (⟨0⟩, Work.new [])

/-- A sample composer that fails fatally on every region. -/
def sampleComposeFail : Composer :=
  fun _ _ => .error [⟨⟨0⟩, "sample fatal error"⟩]

/-- A sample stand-in for the work following the precondition checks of
`layout_fragment_impl`. -/
def sampleRest : Span → Regions → Except (List SourceDiagnostic) Fragment :=
  fun _ _ => .ok []

/-! Helper unfolding lemmas for the region loop, shared by the claim
theorems below. -/

/-- With no fuel left the loop model gives no verdict. -/
theorem layout_flow_loop_zero (compose : Composer) (work : Work)
    (regions : Regions) (acc : List Frame) :
    layout_flow_loop compose 0 work regions acc = none :=
  rfl

/-- One unfolding step of the loop when the composer fails. -/
theorem layout_flow_loop_succ_err (compose : Composer) (fuel : ℕ)
    (work : Work) (regions : Regions) (acc : List Frame)
    (e : List SourceDiagnostic) (h : compose work regions = .error e) :
    layout_flow_loop compose (fuel + 1) work regions acc = some (.error e) := by
  simp [layout_flow_loop, h]

/-- One unfolding step of the loop when the composer produces a frame. -/
theorem layout_flow_loop_succ_ok (compose : Composer) (fuel : ℕ)
    (work work' : Work) (regions : Regions) (acc : List Frame) (frame : Frame)
    (h : compose work regions = .ok (frame, work')) :
    layout_flow_loop compose (fuel + 1) work regions acc =
      if work'.done && (!regions.expand.y || regions.backlog.isEmpty) then
        some (.ok (acc ++ [frame]))
      else
        layout_flow_loop compose fuel work' regions.next (acc ++ [frame]) := by
  simp [layout_flow_loop, h]

/-- One unfolding step of the iteration count when the composer fails. -/
theorem layout_flow_iterations_succ_err (compose : Composer) (fuel : ℕ)
    (work : Work) (regions : Regions)
    (e : List SourceDiagnostic) (h : compose work regions = .error e) :
    layout_flow_iterations compose (fuel + 1) work regions = some (.error e) := by
  simp [layout_flow_iterations, h]

/-- One unfolding step of the iteration count when the composer produces a
frame. -/
theorem layout_flow_iterations_succ_ok (compose : Composer) (fuel : ℕ)
    (work work' : Work) (regions : Regions) (frame : Frame)
    (h : compose work regions = .ok (frame, work')) :
    layout_flow_iterations compose (fuel + 1) work regions =
      if work'.done && (!regions.expand.y || regions.backlog.isEmpty) then
        some (.ok 1)
      else
        (layout_flow_iterations compose fuel work' regions.next).map
          (fun r => r.map (· + 1)) := by
  simp [layout_flow_iterations, h]

/-! Claim theorems. -/

/-- Claim C3: `Work::done` returns true exactly when the remaining
children slice is empty, there is no multi spill, the deferred floats
queue is empty, there is no footnote spill, and the deferred footnotes
queue is empty; the queued tags play no role in it. -/
theorem work_done_iff (w : Work) :
    (w.done = true ↔
      w.children = [] ∧ w.spill = none ∧ w.floats = [] ∧
        w.footnote_spill = none ∧ w.footnotes = []) ∧
    ∀ t : List Tag, ({ w with tags := t } : Work).done = w.done := by
  refine ⟨?_, fun t => rfl⟩
  simp only [Work.done, Bool.and_eq_true, List.isEmpty_iff,
    Option.isNone_iff_eq_none]
  tauto

/-- Claim C9: the configuration carries a line-number configuration
exactly when the flow mode is `Root`; for the block and inline modes it is
`none`. -/
theorem configuration_line_numbers_iff_root_mode (shared : StyleChain)
    (regions : Regions) (columns : ℕ) (column_gutter : Rel) (mode : FlowMode) :
    ((configuration shared regions columns column_gutter mode).line_numbers.isSome
        = true ↔ mode = FlowMode.Root) ∧
    (mode ≠ FlowMode.Root →
      (configuration shared regions columns column_gutter mode).line_numbers
        = none) := by
  unfold configuration
  by_cases h : mode = FlowMode.Root <;> simp [h]

/-- Witness for C9: a block-mode flow gets no line-number configuration. -/
theorem configuration_line_numbers_iff_root_mode_witness :
    (FlowMode.Block ≠ FlowMode.Root) ∧
    (configuration sampleStyles sampleRegions 1 ⟨0, 1⟩
        FlowMode.Block).line_numbers = none :=
  ⟨by decide,
    (configuration_line_numbers_iff_root_mode sampleStyles sampleRegions 1
        ⟨0, 1⟩ FlowMode.Block).2 (by decide)⟩

/-- Claim C7: `Work::extend_skips` with an empty location list changes
nothing, and extending a clone of a work state adds exactly the given
locations to the clone's skip set while the set observed through the
original value is the one it had before — the skip set has copy-on-write
value semantics across snapshots. -/
theorem work_extend_skips_cow (w : Work) (l : List Location) :
    Work.extend_skips w [] = w ∧
    (Work.clone w).skips = w.skips ∧
    (l ≠ [] →
      (Work.extend_skips (Work.clone w) l).skips = w.skips ∪ l.toFinset ∧
      (Work.extend_skips (Work.clone w) l).children = w.children ∧
      (Work.extend_skips (Work.clone w) l).tags = w.tags) := by
  refine ⟨rfl, rfl, fun hl => ?_⟩
  have hne : l.isEmpty = false := by
    cases l with
    | nil => exact absurd rfl hl
    | cons a t => rfl
  simp [Work.extend_skips, Work.clone, hne]

/-- Witness for C7 at a concrete work state and location list. -/
theorem work_extend_skips_cow_witness :
    ([(0 : Location)] ≠ [] ) ∧
    (Work.extend_skips (Work.clone sampleWork) [(0 : Location)]).skips
      = sampleWork.skips ∪ [(0 : Location)].toFinset :=
  ⟨by decide, ((work_extend_skips_cow sampleWork [(0 : Location)]).2.2 (by decide)).1⟩

/-- Claim C2: `layout_fragment_impl` rejects a request whose width axis is
unbounded yet set to auto-expand before any layout work happens: whatever
the remaining layout pipeline would do, the result is the width error.
A request with both axes unbounded and auto-expanding is a special case. -/
theorem layout_fragment_impl_rejects_infinite_width (contentSpan : Span)
    (regions : Regions) (hx : regions.size.x.isFinite = false)
    (he : regions.expand.x = true) :
    ∀ rest, layout_fragment_impl rest contentSpan regions =
      .error [⟨contentSpan, "cannot expand into infinite width"⟩] := by
  intro rest
  unfold layout_fragment_impl
  simp [hx, he]

/-- Witness for C2 at a concrete unbounded-width region. -/
theorem layout_fragment_impl_rejects_infinite_width_witness :
    (sampleInfiniteRegions.size.x.isFinite = false ∧
      sampleInfiniteRegions.expand.x = true) ∧
    layout_fragment_impl sampleRest ⟨0⟩ sampleInfiniteRegions =
      .error [⟨⟨0⟩, "cannot expand into infinite width"⟩] :=
  ⟨⟨rfl, rfl⟩,
    layout_fragment_impl_rejects_infinite_width ⟨0⟩ sampleInfiniteRegions rfl rfl
      sampleRest⟩

/-- Claim C8: the layout entry point is deterministic — two invocations of
`layout_fragment_impl` with identical inputs (the same downstream layout
pipeline, content span and region geometry) return identical results. -/
theorem layout_fragment_impl_deterministic
    (rest₁ rest₂ : Span → Regions → Except (List SourceDiagnostic) Fragment)
    (span₁ span₂ : Span) (regions₁ regions₂ : Regions)
    (hrest : rest₁ = rest₂) (hspan : span₁ = span₂)
    (hregions : regions₁ = regions₂) :
    layout_fragment_impl rest₁ span₁ regions₁ =
      layout_fragment_impl rest₂ span₂ regions₂ := by
  subst hrest hspan hregions
  rfl

/-- Witness for C8 at concrete identical inputs. -/
theorem layout_fragment_impl_deterministic_witness :
    (sampleRest = sampleRest ∧ (⟨0⟩ : Span) = ⟨0⟩ ∧
      sampleRegions = sampleRegions) ∧
    layout_fragment_impl sampleRest ⟨0⟩ sampleRegions =
      layout_fragment_impl sampleRest ⟨0⟩ sampleRegions :=
  ⟨⟨rfl, rfl, rfl⟩,
    layout_fragment_impl_deterministic sampleRest sampleRest ⟨0⟩ ⟨0⟩
      sampleRegions sampleRegions rfl rfl rfl⟩

/-- Claim C1: after composing a frame, the region loop stops exactly when
the updated work is done and either the vertical axis does not auto-expand
or the backlog is empty; otherwise it recurses on the next region —
consuming the head entry of a non-empty backlog — to compose another
frame. -/
theorem layout_flow_loop_stop_iff (compose : Composer) (fuel : ℕ)
    (work work' : Work) (regions : Regions) (acc : List Frame) (frame : Frame)
    (h : compose work regions = .ok (frame, work')) :
    ((work'.done && (!regions.expand.y || regions.backlog.isEmpty)) = true →
      layout_flow_loop compose (fuel + 1) work regions acc =
        some (.ok (acc ++ [frame]))) ∧
    ((work'.done && (!regions.expand.y || regions.backlog.isEmpty)) = false →
      layout_flow_loop compose (fuel + 1) work regions acc =
        layout_flow_loop compose fuel work' regions.next (acc ++ [frame]) ∧
      ∀ b t, regions.backlog = b :: t → (regions.next).backlog = t) := by
  constructor
  · intro hc
    rw [layout_flow_loop_succ_ok compose fuel work work' regions acc frame h,
      if_pos hc]
  · intro hc
    refine ⟨?_, fun b t hb => ?_⟩
    · rw [layout_flow_loop_succ_ok compose fuel work work' regions acc frame h,
        if_neg (by simp [hc])]
    · simp [Regions.next, hb]

/-- Witness for C1: a composer that finishes everything stops the loop on
a non-expanding region with the single composed frame. -/
theorem layout_flow_loop_stop_iff_witness :
    sampleComposeDone sampleWork sampleRegions = .ok (⟨0⟩, Work.new []) ∧
    layout_flow_loop sampleComposeDone 1 sampleWork sampleRegions [] =
      some (.ok [⟨0⟩]) :=
  ⟨rfl,
    (layout_flow_loop_stop_iff sampleComposeDone 0 sampleWork (Work.new [])
        sampleRegions [] ⟨0⟩ rfl).1 (by decide)⟩

/-- Claim C6: a fatal composition error makes the whole loop return only
the error diagnostics — the outcome does not depend on the frames already
composed for earlier regions, which are discarded, and the error variant
carries no frame list. -/
theorem layout_flow_loop_error_discards_frames (compose : Composer) :
    ∀ (fuel : ℕ) (work : Work) (regions : Regions) (acc acc' : List Frame)
      (e : List SourceDiagnostic),
      layout_flow_loop compose fuel work regions acc = some (.error e) →
      layout_flow_loop compose fuel work regions acc' = some (.error e) := by
  intro fuel
  induction fuel with
  | zero =>
    intro work regions acc acc' e h
    rw [layout_flow_loop_zero] at h
    exact absurd h (by simp)
  | succ fuel ih =>
    intro work regions acc acc' e h
    cases hc : compose work regions with
    | error e2 =>
      rw [layout_flow_loop_succ_err compose fuel work regions acc e2 hc] at h
      rw [layout_flow_loop_succ_err compose fuel work regions acc' e2 hc]
      exact h
    | ok p =>
      obtain ⟨frame, work'⟩ := p
      rw [layout_flow_loop_succ_ok compose fuel work work' regions acc frame hc]
        at h
      rw [layout_flow_loop_succ_ok compose fuel work work' regions acc' frame hc]
      cases hd : (work'.done && (!regions.expand.y || regions.backlog.isEmpty))
      case true =>
        rw [if_pos hd] at h
        exact absurd h (by simp)
      case false =>
        rw [if_neg (by simp [hd])] at h
        rw [if_neg (by simp [hd])]
        exact ih work' regions.next (acc ++ [frame]) (acc' ++ [frame]) e h

/-- Witness for C6: with a failing composer the loop result is the error,
whether or not frames had been composed before. -/
theorem layout_flow_loop_error_discards_frames_witness :
    layout_flow_loop sampleComposeFail 1 sampleWork sampleRegions [⟨7⟩] =
      some (.error [⟨⟨0⟩, "sample fatal error"⟩]) ∧
    layout_flow_loop sampleComposeFail 1 sampleWork sampleRegions [] =
      some (.error [⟨⟨0⟩, "sample fatal error"⟩]) :=
  ⟨rfl,
    layout_flow_loop_error_discards_frames sampleComposeFail 1 sampleWork
      sampleRegions [⟨7⟩] [] [⟨⟨0⟩, "sample fatal error"⟩] rfl⟩

/-- Claim C4: when the region loop succeeds it has appended exactly one
frame per consumed region, in consumption order: the finished list extends
the accumulator by as many frames as the loop ran iterations, and at least
one region is consumed. -/
theorem layout_flow_loop_one_frame_per_region (compose : Composer) :
    ∀ (fuel : ℕ) (work : Work) (regions : Regions) (acc out : List Frame),
      layout_flow_loop compose fuel work regions acc = some (.ok out) →
      ∃ n, layout_flow_iterations compose fuel work regions = some (.ok n) ∧
        out.length = acc.length + n ∧ 1 ≤ n ∧ ∃ tail, out = acc ++ tail := by
  intro fuel
  induction fuel with
  | zero =>
    intro work regions acc out h
    rw [layout_flow_loop_zero] at h
    exact absurd h (by simp)
  | succ fuel ih =>
    intro work regions acc out h
    cases hc : compose work regions with
    | error e =>
      rw [layout_flow_loop_succ_err compose fuel work regions acc e hc] at h
      exact absurd h (by simp)
    | ok p =>
      obtain ⟨frame, work'⟩ := p
      rw [layout_flow_loop_succ_ok compose fuel work work' regions acc frame hc]
        at h
      rw [layout_flow_iterations_succ_ok compose fuel work work' regions frame hc]
      cases hd : (work'.done && (!regions.expand.y || regions.backlog.isEmpty))
      case true =>
        rw [if_pos hd] at h
        refine ⟨1, by simp, ?_, le_refl 1, [frame], ?_⟩
        · have hout : out = acc ++ [frame] := by
            simpa using h.symm
          simp [hout]
        · simpa using h.symm
      case false =>
        rw [if_neg (by simp [hd])] at h
        obtain ⟨n, hiter, hlen, hpos, tail, htail⟩ :=
          ih work' regions.next (acc ++ [frame]) out h
        refine ⟨n + 1, ?_, ?_, le_trans hpos (Nat.le_succ n),
          frame :: tail, ?_⟩
        · simp [hiter, Except.map]
        · simpa [Nat.add_comm, Nat.add_assoc, Nat.add_left_comm] using hlen
        · simpa using htail


/-- Witness for C4: a one-iteration run yields one frame for the one
consumed region. -/
theorem layout_flow_loop_one_frame_per_region_witness :
    layout_flow_loop sampleComposeDone 1 sampleWork sampleRegions [] =
      some (.ok [⟨0⟩]) ∧
    ∃ n, layout_flow_iterations sampleComposeDone 1 sampleWork sampleRegions =
        some (.ok n) ∧
      ([⟨0⟩] : List Frame).length = ([] : List Frame).length + n ∧ 1 ≤ n ∧
      ∃ tail, ([⟨0⟩] : List Frame) = [] ++ tail :=
  ⟨rfl,
    layout_flow_loop_one_frame_per_region sampleComposeDone 1 sampleWork
      sampleRegions [] [⟨0⟩] rfl⟩

/-- Claim C5: for a finite region width the configured columns tile the
region exactly — the count stays as requested, the width and gutter are
finite, and count times width plus (count minus one) gutters equals the
region width; with two columns they span exactly twice the width plus one
gutter. -/
theorem configuration_column_span (shared : StyleChain) (regions : Regions)
    (columns : ℕ) (column_gutter : Rel) (mode : FlowMode) (s : ℚ)
    (hfin : regions.size.x = Abs.fin s) (hpos : 0 < columns) :
    (configuration shared regions columns column_gutter mode).columns.count
      = columns ∧
    ∃ w g : ℚ,
      (configuration shared regions columns column_gutter mode).columns.width
        = Abs.fin w ∧
      (configuration shared regions columns column_gutter mode).columns.gutter
        = Abs.fin g ∧
      (columns : ℚ) * w + ((columns - 1 : ℕ) : ℚ) * g = s := by
  have hc0 : (columns : ℚ) ≠ 0 := Nat.cast_ne_zero.mpr hpos.ne'
  refine ⟨?_,
    (s - (column_gutter.rel * s + column_gutter.abs) * ((columns - 1 : ℕ) : ℚ))
      / (columns : ℚ),
    column_gutter.rel * s + column_gutter.abs, ?_, ?_, ?_⟩
  · simp [configuration, Regions.base, hfin, Abs.isFinite]
  · simp [configuration, Regions.base, hfin, Abs.isFinite, Rel.relative_to,
      Abs.mulNat, Abs.sub, Abs.divNat]
  · simp [configuration, Regions.base, hfin, Abs.isFinite, Rel.relative_to]
  · field_simp
    ring

/-- Witness for C5: with width 10, two requested columns and a constant
gutter, the configured columns tile the region exactly. -/
theorem configuration_column_span_witness :
    (sampleRegions.size.x = Abs.fin 10 ∧ 0 < 2) ∧
    ((configuration sampleStyles sampleRegions 2 ⟨0, 1⟩ FlowMode.Block).columns.count
        = 2 ∧
      ∃ w g : ℚ,
        (configuration sampleStyles sampleRegions 2 ⟨0, 1⟩
              FlowMode.Block).columns.width = Abs.fin w ∧
        (configuration sampleStyles sampleRegions 2 ⟨0, 1⟩
              FlowMode.Block).columns.gutter = Abs.fin g ∧
        ((2 : ℕ) : ℚ) * w + (((2 : ℕ) - 1 : ℕ) : ℚ) * g = 10) :=
  ⟨⟨rfl, by decide⟩,
    configuration_column_span sampleStyles sampleRegions 2 ⟨0, 1⟩ FlowMode.Block
      10 rfl (by decide)⟩

/-- Claim C10: for a region whose width is not finite, the configuration
forces a single column — the count becomes one regardless of the request,
the gutter term for the column width computation vanishes, and the single
column is as wide as the (unbounded) region. -/
theorem configuration_infinite_width_single_column (shared : StyleChain)
    (regions : Regions) (columns : ℕ) (column_gutter : Rel) (mode : FlowMode)
    (hinf : regions.size.x.isFinite = false) :
    (configuration shared regions columns column_gutter mode).columns.count = 1 ∧
    (configuration shared regions columns column_gutter mode).columns.gutter.mulNat
        ((configuration shared regions columns column_gutter mode).columns.count
          - 1) = Abs.fin 0 ∧
    (configuration shared regions columns column_gutter mode).columns.width
      = regions.size.x := by
  have hx : regions.size.x = Abs.inf := by
    cases he : regions.size.x with
    | fin v => rw [he] at hinf; simp [Abs.isFinite] at hinf
    | inf => rfl
  simp [configuration, Regions.base, hx, Abs.isFinite, Rel.relative_to,
    Abs.mulNat, Abs.sub, Abs.divNat]

/-- Witness for C10 at a concrete unbounded-width region with three
requested columns. -/
theorem configuration_infinite_width_single_column_witness :
    sampleInfiniteRegions.size.x.isFinite = false ∧
    ((configuration sampleStyles sampleInfiniteRegions 3 ⟨0, 1⟩
          FlowMode.Block).columns.count = 1 ∧
      (configuration sampleStyles sampleInfiniteRegions 3 ⟨0, 1⟩
            FlowMode.Block).columns.gutter.mulNat
          ((configuration sampleStyles sampleInfiniteRegions 3 ⟨0, 1⟩
                FlowMode.Block).columns.count - 1) = Abs.fin 0 ∧
      (configuration sampleStyles sampleInfiniteRegions 3 ⟨0, 1⟩
            FlowMode.Block).columns.width = sampleInfiniteRegions.size.x) :=
  ⟨rfl,
    configuration_infinite_width_single_column sampleStyles
      sampleInfiniteRegions 3 ⟨0, 1⟩ FlowMode.Block rfl⟩

end Flow
